import Mathlib

/-!
Verification development for the `talk-to-my-data-agent` repository.

The definitions below are a shallow embedding of `src/utils/schema.py`
(pydantic models, their field validators, and the record-oriented dataframe
wrapper) together with the reflective execution engine that the spec
describes for the module `utils/code_execution` (imported by `schema.py`
but not shipped under `src/`).

Modelling conventions:
* A Python dict (a record of a pandas dataframe) is an insertion-ordered
  association list `List (String × Value)` with pairwise-distinct keys;
  Python dict equality (key set + values, order-insensitive) is
  `Record.EquivDict`.
* Scalar cell values are the inductive `Value` (ints, floats as exact
  rationals, strings, booleans, `None`, and the missing-value marker
  `NaN`).  `pandas.DataFrame.from_records` performs numeric dtype
  unification: a numeric column containing a float, `None`, or a missing
  cell becomes `float64` (ints coerced to equal-valued floats, gaps
  `NaN`).  Round-trip equality is Python `==` between the freshly boxed
  projection values and the input values, under which `NaN` is unequal to
  everything, itself included.  Float64 rounding of huge integers and
  Python object-identity shortcuts are outside the embedding;
  `float`-typed metadata fields such as `duration` are modelled as `Rat`.
* A pydantic model with validators is embedded as a constructor function
  returning `Except String _`: `.ok` exactly when pydantic construction
  succeeds, `.error` when any validator raises.  A pydantic model without
  validators is embedded as a constructor that always returns `.ok`,
  because pydantic then checks only the field types (which the Lean types
  already enforce).
-/

namespace TalkToMyData

/-- Whether a pydantic construction (embedded as `Except`) succeeded. -/
def constructs {α : Type} : Except String α → Bool
  | .ok _ => true
  | .error _ => false

/-- A scalar cell value of a dataset record.  `vFloat` carries the float's
exact value as a rational (float64 rounding of huge integers is outside
the embedding); `vNan` is the float `NaN`, which is also what
`pandas.DataFrame.from_records` fills in for a key that a record lacks
and what `None` becomes in a `float64`-unified column. -/
inductive Value where
  | vInt (i : Int)
  | vFloat (q : Rat)
  | vStr (s : String)
  | vBool (b : Bool)
  | vNull
  | vNan
deriving DecidableEq

/-- Python `==` on scalar values, as observed between a freshly boxed
projection cell and an input value: `int`, `float` and `bool` compare
numerically across kinds; `NaN` is unequal to everything, itself included
(`to_dict` boxes fresh float objects, so the interpreter's identity
shortcut never applies); `None` equals only `None`. -/
def Value.pyEq : Value → Value → Bool
  | .vInt a, .vInt b => a = b
  | .vInt a, .vFloat q => (a : Rat) = q
  | .vFloat q, .vInt a => q = (a : Rat)
  | .vFloat p, .vFloat q => p = q
  | .vInt a, .vBool b => a = (if b then 1 else 0)
  | .vBool b, .vInt a => (if b then (1 : Int) else 0) = a
  | .vFloat q, .vBool b => q = (if b then (1 : Rat) else 0)
  | .vBool b, .vFloat q => (if b then (1 : Rat) else 0) = q
  | .vBool a, .vBool b => a = b
  | .vStr s, .vStr t => s = t
  | .vNull, .vNull => true
  | _, _ => false

/-- A Python dict record: insertion-ordered association list from column
names to scalar values. -/
abbrev Record := List (String × Value)

/-- The keys of a record, in insertion order. -/
def Record.keys (r : Record) : List String := r.map (·.1)

/-- Python `r[k]` / `r.get(k)`: the value stored at key `k`, if any. -/
def Record.lookup (r : Record) (k : String) : Option Value :=
  (r.find? (fun p => p.1 = k)).map (·.2)

/-- `Value.pyEq` lifted to optional cells: a key present in only one of
the two dicts breaks equality. -/
def optPyEq : Option Value → Option Value → Bool
  | some v, some w => Value.pyEq v w
  | none, none => true
  | _, _ => false

/-- Python dict equality between a freshly produced record and an input
record: the key sets coincide and the values at each key are `==`-equal
per `Value.pyEq` (no object-identity shortcut); insertion order is
irrelevant, exactly as for `dict.__eq__`. -/
def Record.EquivDict (a b : Record) : Prop :=
  ∀ k, optPyEq (Record.lookup a k) (Record.lookup b k) = true

/-- A pandas dataframe: an ordered list of column names and the rows, each
row listing its cells in column order. -/
structure DataFrame where
  columns : List String
  rows : List (List Value)
deriving DecidableEq

/-- The column order `pandas.DataFrame.from_records` infers from a list of
dict records: every key, in order of first appearance. -/
def unionKeys (records : List Record) : List String :=
  records.foldl (fun acc r => acc ++ (r.keys.filter (fun k => !acc.contains k))) []

/-- Whether a cell value is of numeric kind for pandas dtype unification
(`int64`/`float64`; `NaN` is a float). -/
def Value.isNumericKind : Value → Bool
  | .vInt _ => true
  | .vFloat _ => true
  | .vNan => true
  | _ => false

/-- Whether a cell value is `None`. -/
def Value.isNone : Value → Bool
  | .vNull => true
  | _ => false

/-- pandas numeric dtype unification test for one column (its cells listed
per record, `none` where a record lacks the key): the column becomes
`float64` when every present value is numeric or `None`, at least one is
numeric, and the column is not an all-present all-`int` column (which
stays `int64`).  Columns of any other shape keep their values as Python
objects. -/
def floatUnify (cells : List (Option Value)) : Bool :=
  cells.all (fun c => match c with
    | some v => Value.isNumericKind v || Value.isNone v
    | none => true) &&
  cells.any (fun c => match c with
    | some v => Value.isNumericKind v
    | none => false) &&
  !(cells.all (fun c => match c with
    | some (.vInt _) => true
    | _ => false))

/-- The `float64` coercion applied to one cell of a unified column: ints
become equal-valued floats, `None` and missing cells become `NaN`. -/
def floatCoerce : Option Value → Value
  | some (.vInt i) => .vFloat (i : Rat)
  | some .vNull => .vNan
  | none => .vNan
  | some v => v

/-- One cell of a non-unified (object-like) column: the value is kept and
a missing cell is `NaN`-filled. -/
def objectFill : Option Value → Value
  | some v => v
  | none => .vNan

/-- `pandas.DataFrame.from_records` on a list of dict records: columns are
the keys in order of first appearance; each column is dtype-unified — a
numeric column containing a float, `None`, or a missing cell becomes
`float64` (`floatCoerce` per cell), any other column keeps its values with
`NaN` filled for missing keys (`objectFill`).  On dict records this
construction is total (any family of mappings is reconciled into a
rectangular table). -/
def DataFrame.from_records (records : List Record) : DataFrame :=
  { columns := unionKeys records
    rows := records.map (fun r =>
      (unionKeys records).map (fun c =>
        if floatUnify (records.map (fun r2 => Record.lookup r2 c))
        then floatCoerce (Record.lookup r c)
        else objectFill (Record.lookup r c))) }

/-- `df.to_dict(orient="records")` (with the `str(k)` key coercion of
`DataFrameWrapper.to_dict`, a no-op here since keys are strings): one dict
per row, keys in column order. -/
def DataFrame.to_dict (df : DataFrame) : List Record :=
  df.rows.map (fun row => df.columns.zip row)

/-- An example record list (two uniform records over columns `a`, `b`,
with differing key order; no column is `float64`-unified) used to
instantiate theorems with hypotheses. -/
def exampleRecords : List Record :=
  [[("a", Value.vInt 1), ("b", Value.vStr "x")],
   [("b", Value.vStr "y"), ("a", Value.vInt 2)]]

/-- The record list of one int record and one `None` record over the
single column `a` — uniform, but its column mixes an int with `None` and
is therefore `float64`-unified by pandas. -/
def counterRecords : List Record :=
  [[("a", Value.vInt 1)], [("a", Value.vNull)]]

/-- `DataFrameWrapper`: the internal holder of the pandas dataframe. -/
structure DataFrameWrapper where
  df : DataFrame
deriving DecidableEq

/-- The inputs `DataFrameWrapper.validate` accepts: an already wrapped
instance, a pandas dataframe, a list of records, or anything else. -/
inductive DFInput where
  | wrapped (w : DataFrameWrapper)
  | frame (df : DataFrame)
  | records (rs : List Record)
  | other
deriving DecidableEq

/-- `DataFrameWrapper.validate`: accept a wrapped instance or a dataframe
as-is; build a dataframe from a list of records (total on dict records, so
the `except` branch that would report an invalid record list is never taken
for mappings); reject any other input. -/
def DataFrameWrapper.validate : DFInput → Except String DataFrameWrapper
  | .wrapped w => .ok w
  | .frame df => .ok ⟨df⟩
  | .records rs => .ok ⟨DataFrame.from_records rs⟩
  | .other => .error "data must be either a pandas DataFrame or a list of records"

/-- `AnalystDataset`: a named dataset holding a wrapped dataframe. -/
structure AnalystDataset where
  name : String
  data : DataFrameWrapper
deriving DecidableEq

/-- Constructing `AnalystDataset(name=name, data=records)`: pydantic runs
`DataFrameWrapper.validate` on the `data` field. -/
def AnalystDataset.from_records (name : String) (records : List Record) :
    Except String AnalystDataset :=
  (DataFrameWrapper.validate (.records records)).map (fun w => ⟨name, w⟩)

/-- `AnalystDataset.data_records`: the computed field projecting the
internal dataframe back to a list of record dicts. -/
def AnalystDataset.data_records (d : AnalystDataset) : List Record :=
  d.data.df.to_dict

/-- `AnalystDataset.columns`: ordered column names of the dataframe. -/
def AnalystDataset.columns (d : AnalystDataset) : List String :=
  d.data.df.columns

/-! ### Data dictionaries (`DataDictionaryColumn`, `DataDictionary`,
`DictionaryGeneration`) -/

/-- One `(data_type, column, description)` entry of a data dictionary. -/
structure DataDictionaryColumn where
  data_type : String
  column : String
  description : String
deriving DecidableEq

/-- `DataDictionary`: a named ordered list of column descriptions. -/
structure DataDictionary where
  name : String
  column_descriptions : List DataDictionaryColumn
deriving DecidableEq

/-- Pydantic construction of `DataDictionary`: the model declares no field
or model validators, so any well-typed `name` / `column_descriptions` pair
is accepted. -/
def mkDataDictionary (name : String) (column_descriptions : List DataDictionaryColumn) :
    Except String DataDictionary :=
  .ok ⟨name, column_descriptions⟩

/-- The pandas dtype name of a single cell, as `str(value.dtype-kind)`
would render it. -/
def Value.dtypeName : Value → String
  | .vInt _ => "int64"
  | .vFloat _ => "float64"
  | .vStr _ => "object"
  | .vBool _ => "bool"
  | .vNull => "object"
  | .vNan => "float64"

/-- `str(df[col].dtype)`, modelled coarsely: the common dtype name of the
column's cells when they all share one, `"object"` otherwise or for an
empty column.  (No claim depends on the dtype strings themselves.) -/
def DataFrame.colDtype (df : DataFrame) (c : String) : String :=
  let idx := df.columns.indexOf c
  match df.rows.filterMap (fun row => row.get? idx) with
  | [] => "object"
  | v :: vs => if vs.all (fun w => w.dtypeName == v.dtypeName) then v.dtypeName else "object"

/-- `DataDictionary.from_analyst_df`: one entry per dataframe column, in
column order, with the shared default description and the column dtype. -/
def DataDictionary.from_analyst_df (df : DataFrame)
    (name : String := "analysis_result")
    (column_descriptions : String := "Analysis result column") : DataDictionary :=
  { name := name
    column_descriptions := df.columns.map (fun col =>
      { column := col
        description := column_descriptions
        data_type := df.colDtype col }) }

/-- `DataDictionary.to_application_df`: a dataframe with the three columns
`column`, `description`, `data_type`, one row per dictionary entry. -/
def DataDictionary.to_application_df (d : DataDictionary) : DataFrame :=
  { columns := ["column", "description", "data_type"]
    rows := d.column_descriptions.map (fun c =>
      [Value.vStr c.column, Value.vStr c.description, Value.vStr c.data_type]) }

/-- Reading a cell of a row by column name (`row[col]` on an `iterrows`
row). -/
def DataFrame.cell (df : DataFrame) (row : List Value) (c : String) : Option Value :=
  row.get? (df.columns.indexOf c)

/-- A cell that must be a string to populate a `str` pydantic field. -/
def Value.asString : Value → Except String String
  | .vStr s => .ok s
  | _ => .error "field must be a string"

/-- Building one `DataDictionaryColumn` from one `iterrows` row
(`row["column"]`, `row["description"]`, `row["data_type"]`, each a `str`
pydantic field). -/
def DataFrame.readDictRow (df : DataFrame) (row : List Value) :
    Except String DataDictionaryColumn :=
  match ((df.cell row "column").getD Value.vNan).asString with
  | .error m => .error m
  | .ok col =>
    match ((df.cell row "description").getD Value.vNan).asString with
    | .error m => .error m
    | .ok desc =>
      match ((df.cell row "data_type").getD Value.vNan).asString with
      | .error m => .error m
      | .ok dt => .ok { data_type := dt, column := col, description := desc }

/-- The `iterrows` comprehension of `from_application_df`: one
`DataDictionaryColumn` per row, in row order, failing on the first bad
row. -/
def DataFrame.readDictRows (df : DataFrame) :
    List (List Value) → Except String (List DataDictionaryColumn)
  | [] => .ok []
  | row :: rest =>
    match df.readDictRow row with
    | .error m => .error m
    | .ok c =>
      match df.readDictRows rest with
      | .error m => .error m
      | .ok cs => .ok (c :: cs)

/-- `DataDictionary.from_application_df`: require the `column`,
`description`, `data_type` columns to be present, then build one
`DataDictionaryColumn` per row (`iterrows` order). -/
def DataDictionary.from_application_df (df : DataFrame)
    (name : String := "analysis_result") : Except String DataDictionary :=
  if ("column" ∈ df.columns ∧ "description" ∈ df.columns ∧ "data_type" ∈ df.columns) then
    match df.readDictRows df.rows with
    | .error m => .error m
    | .ok column_descriptions => .ok { name := name, column_descriptions := column_descriptions }
  else
    .error "DataFrame must contain columns: column, description, data_type"

/-- `DictionaryGeneration`: the LLM-output validator pairing column names
with generated descriptions. -/
structure DictionaryGeneration where
  columns : List String
  descriptions : List String
deriving DecidableEq

/-- The `validate_columns` field validator: the column list must be
non-empty, duplicate-free (`len(v) == len(set(v))`), and contain no empty
name. -/
def DictionaryGeneration.validate_columns (v : List String) : Except String (List String) :=
  if v = [] then
    .error "Columns list cannot be empty"
  else if v.length ≠ v.dedup.length then
    .error "Duplicate column names are not allowed"
  else if v.any (fun col => col = "") then
    .error "Each column name must be a non-empty string"
  else
    .ok v

/-- The per-description checks of `validate_descriptions`: non-empty, and
at least 10 characters after stripping whitespace. -/
def DictionaryGeneration.checkDescription (desc : String) : Except String Unit :=
  if desc = "" then
    .error "Each description must be a non-empty string"
  else if desc.trim.length < 10 then
    .error "Descriptions must be at least 10 characters long"
  else
    .ok ()

/-- The `for desc in v` loop of `validate_descriptions`: check every
description in order, stopping at the first violation. -/
def DictionaryGeneration.checkDescriptions : List String → Except String Unit
  | [] => .ok ()
  | desc :: rest =>
    match DictionaryGeneration.checkDescription desc with
    | .error m => .error m
    | .ok _ => DictionaryGeneration.checkDescriptions rest

/-- The `validate_descriptions` field validator: requires the (already
validated) columns, matching lengths, and every description to pass
`checkDescription`.  (When the length check fails the Python code raises
while formatting its message; either way construction fails.) -/
def DictionaryGeneration.validate_descriptions (v : List String) (columns : List String) :
    Except String (List String) :=
  if v.length ≠ columns.length then
    .error "Number of descriptions must match number of columns"
  else
    match DictionaryGeneration.checkDescriptions v with
    | .error m => .error m
    | .ok _ => .ok v

/-- Pydantic construction of `DictionaryGeneration`: `validate_columns`
runs on the `columns` field, then `validate_descriptions` on the
`descriptions` field (and when the columns failed their own validation the
descriptions validator fails too, lacking `values.data["columns"]`), so
construction succeeds exactly when both validators pass. -/
def mkDictionaryGeneration (columns descriptions : List String) :
    Except String DictionaryGeneration :=
  (DictionaryGeneration.validate_columns columns).bind (fun cols =>
    (DictionaryGeneration.validate_descriptions descriptions cols).bind (fun descs =>
      .ok ⟨cols, descs⟩))

/-! ### Requests, results, and the error schema -/

/-- `RunAnalysisRequest`: datasets, dictionaries and a question.  No
validator constrains the question (the field is a plain `str`). -/
structure RunAnalysisRequest where
  datasets : List AnalystDataset
  dictionaries : List DataDictionary
  question : String
deriving DecidableEq

/-- Pydantic construction of `RunAnalysisRequest`: only field types are
checked; in particular the `question` string is unconstrained. -/
def mkRunAnalysisRequest (datasets : List AnalystDataset)
    (dictionaries : List DataDictionary) (question : String) :
    Except String RunAnalysisRequest :=
  .ok ⟨datasets, dictionaries, question⟩

/-- `RunChartsRequest`: one dataset and a question (plain `str`, no
constraint). -/
structure RunChartsRequest where
  dataset : AnalystDataset
  question : String
deriving DecidableEq

/-- Pydantic construction of `RunChartsRequest`: only field types are
checked. -/
def mkRunChartsRequest (dataset : AnalystDataset) (question : String) :
    Except String RunChartsRequest :=
  .ok ⟨dataset, question⟩

/-- `RunDatabaseAnalysisRequest`: datasets, dictionaries and a question
declared as `Field(min_length=1)`. -/
structure RunDatabaseAnalysisRequest where
  datasets : List AnalystDataset
  dictionaries : List DataDictionary
  question : String
deriving DecidableEq

/-- Pydantic construction of `RunDatabaseAnalysisRequest`: the
`min_length=1` constraint on `question` rejects strings of length 0. -/
def mkRunDatabaseAnalysisRequest (datasets : List AnalystDataset)
    (dictionaries : List DataDictionary) (question : String) :
    Except String RunDatabaseAnalysisRequest :=
  if 1 ≤ question.length then
    .ok ⟨datasets, dictionaries, question⟩
  else
    .error "String should have at least 1 character"

/-- `CodeExecutionError`: one failed execution attempt's snapshot.  All
fields are optional. -/
structure CodeExecutionError where
  code : Option String := none
  exception_str : Option String := none
  stdout : Option String := none
  stderr : Option String := none
  traceback_str : Option String := none
deriving DecidableEq

/-- `AnalysisError`: the terminal error wrapper holding the (optional)
ordered exception history. -/
structure AnalysisError where
  exception_history : Option (List CodeExecutionError) := none
deriving DecidableEq

/-- One entry of `MaxReflectionAttempts.exception_history` as consumed by
`AnalysisError.from_max_reflection_exception`: the attempt's exception
(rendered by `str(...)`), traceback, code, stdout and stderr.

Modelled from the spec: the type lives in `utils/code_execution`, which is
imported by `src/utils/schema.py` but is not part of `src/`; the fields are
exactly those `from_max_reflection_exception` reads. -/
structure ReflectedException where
  exception : String
  traceback_str : Option String := none
  code : Option String := none
  stdout : Option String := none
  stderr : Option String := none
deriving DecidableEq

/-- `MaxReflectionAttempts`: the reflection-exhausted exception carrying
the optional failure history (entries may be `None`).

Modelled from the spec: defined in the missing `utils/code_execution`
module; only the `exception_history` field is consumed by
`src/utils/schema.py`. -/
structure MaxReflectionAttempts where
  exception_history : Option (List (Option ReflectedException)) := none
deriving DecidableEq

/-- The per-entry conversion inside
`AnalysisError.from_max_reflection_exception`. -/
def ReflectedException.toCodeExecutionError (e : ReflectedException) : CodeExecutionError :=
  { exception_str := some e.exception
    traceback_str := e.traceback_str
    code := e.code
    stdout := e.stdout
    stderr := e.stderr }

/-- `AnalysisError.from_max_reflection_exception`: convert every non-`None`
history entry, preserving order; a `None` history stays `None`. -/
def AnalysisError.from_max_reflection_exception (exc : MaxReflectionAttempts) : AnalysisError :=
  { exception_history :=
      exc.exception_history.map (fun h =>
        (h.filterMap id).map ReflectedException.toCodeExecutionError) }

/-- `RunAnalysisResultMetadata`: `duration` and `attempts` are required;
the analyzed-counts and the exception are optional. -/
structure RunAnalysisResultMetadata where
  duration : Rat
  attempts : Int
  datasets_analyzed : Option Int := none
  total_rows_analyzed : Option Int := none
  total_columns_analyzed : Option Int := none
  exception : Option AnalysisError := none
deriving DecidableEq

/-- Pydantic construction of `RunAnalysisResultMetadata` from possibly
missing field values: the required `duration` and `attempts` must be
present; the optional fields default to `None`. -/
def mkRunAnalysisResultMetadata (duration : Option Rat) (attempts : Option Int)
    (datasets_analyzed total_rows_analyzed total_columns_analyzed : Option Int)
    (exception : Option AnalysisError) : Except String RunAnalysisResultMetadata :=
  match duration, attempts with
  | some d, some a =>
      .ok ⟨d, a, datasets_analyzed, total_rows_analyzed, total_columns_analyzed, exception⟩
  | _, _ => .error "Field required"

/-- `RunAnalysisResult`: a status tag, metadata, and the optional produced
dataset and code. -/
structure RunAnalysisResult where
  status : String
  metadata : RunAnalysisResultMetadata
  dataset : Option AnalystDataset := none
  code : Option String := none
deriving DecidableEq

/-- Pydantic construction of `RunAnalysisResult`: the only constraint is
the `Literal["success", "error"]` type of `status`; no validator relates
`status` to `metadata.exception`. -/
def mkRunAnalysisResult (status : String) (metadata : RunAnalysisResultMetadata)
    (dataset : Option AnalystDataset) (code : Option String) :
    Except String RunAnalysisResult :=
  if status = "success" ∨ status = "error" then
    .ok ⟨status, metadata, dataset, code⟩
  else
    .error "Input should be 'success' or 'error'"

/-- `RunDatabaseAnalysisResultMetadata`: like the analysis metadata but
without a row count. -/
structure RunDatabaseAnalysisResultMetadata where
  duration : Rat
  attempts : Int
  datasets_analyzed : Option Int := none
  total_columns_analyzed : Option Int := none
  exception : Option AnalysisError := none
deriving DecidableEq

/-- Pydantic construction of `RunDatabaseAnalysisResultMetadata`:
`duration` and `attempts` required, the rest optional. -/
def mkRunDatabaseAnalysisResultMetadata (duration : Option Rat) (attempts : Option Int)
    (datasets_analyzed total_columns_analyzed : Option Int)
    (exception : Option AnalysisError) : Except String RunDatabaseAnalysisResultMetadata :=
  match duration, attempts with
  | some d, some a =>
      .ok ⟨d, a, datasets_analyzed, total_columns_analyzed, exception⟩
  | _, _ => .error "Field required"

/-- `RunDatabaseAnalysisResult`: status tag, metadata, optional dataset and
code. -/
structure RunDatabaseAnalysisResult where
  status : String
  metadata : RunDatabaseAnalysisResultMetadata
  dataset : Option AnalystDataset := none
  code : Option String := none
deriving DecidableEq

/-- Pydantic construction of `RunDatabaseAnalysisResult`: only the
`Literal` constraint on `status` is enforced. -/
def mkRunDatabaseAnalysisResult (status : String)
    (metadata : RunDatabaseAnalysisResultMetadata)
    (dataset : Option AnalystDataset) (code : Option String) :
    Except String RunDatabaseAnalysisResult :=
  if status = "success" ∨ status = "error" then
    .ok ⟨status, metadata, dataset, code⟩
  else
    .error "Input should be 'success' or 'error'"

/-- `RunChartsResult`: status tag, optional figure JSON strings and code,
and analysis metadata. -/
structure RunChartsResult where
  status : String
  fig1_json : Option String := none
  fig2_json : Option String := none
  code : Option String := none
  metadata : RunAnalysisResultMetadata
deriving DecidableEq

/-- Pydantic construction of `RunChartsResult`: only the `Literal`
constraint on `status` is enforced. -/
def mkRunChartsResult (status : String) (fig1_json fig2_json code : Option String)
    (metadata : RunAnalysisResultMetadata) : Except String RunChartsResult :=
  if status = "success" ∨ status = "error" then
    .ok ⟨status, fig1_json, fig2_json, code, metadata⟩
  else
    .error "Input should be 'success' or 'error'"

/-- `GetBusinessAnalysisMetadata`: every field is optional. -/
structure GetBusinessAnalysisMetadata where
  duration : Option Rat := none
  question : Option String := none
  rows_analyzed : Option Int := none
  columns_analyzed : Option Int := none
  exception_str : Option String := none
deriving DecidableEq

/-- `GetBusinessAnalysisResult`: status tag, the narrative fields, and an
optional metadata block (defaulting to `None`). -/
structure GetBusinessAnalysisResult where
  status : String
  bottom_line : String
  additional_insights : String
  follow_up_questions : List String
  metadata : Option GetBusinessAnalysisMetadata := none
deriving DecidableEq

/-- Pydantic construction of `GetBusinessAnalysisResult`: only the
`Literal` constraint on `status` is enforced; `metadata` may be absent. -/
def mkGetBusinessAnalysisResult (status : String)
    (bottom_line additional_insights : String) (follow_up_questions : List String)
    (metadata : Option GetBusinessAnalysisMetadata) :
    Except String GetBusinessAnalysisResult :=
  if status = "success" ∨ status = "error" then
    .ok ⟨status, bottom_line, additional_insights, follow_up_questions, metadata⟩
  else
    .error "Input should be 'success' or 'error'"

/-! ### Chat messages and their transport marshaling -/

/-- `EnhancedQuestionGeneration`. -/
structure EnhancedQuestionGeneration where
  enhanced_user_message : String
deriving DecidableEq

/-- The closed union of result objects a chat message may attach as
components. -/
inductive ChatComponent where
  | analysis (r : RunAnalysisResult)
  | charts (r : RunChartsResult)
  | business (r : GetBusinessAnalysisResult)
  | enhanced (r : EnhancedQuestionGeneration)
  | database (r : RunDatabaseAnalysisResult)
deriving DecidableEq

/-- `UserRoleType = Literal["assistant", "user", "system"]`. -/
inductive UserRoleType where
  | assistant
  | user
  | system
deriving DecidableEq

/-- The transport shape built by `to_openai_message_param`: each of the
three `ChatCompletion*MessageParam` dicts carries exactly a `role` and a
`content` key. -/
structure ChatCompletionMessageParam where
  role : UserRoleType
  content : String
deriving DecidableEq

/-- `AnalystChatMessage`: role, free-text content, and the ordered list of
structured components attached to the turn. -/
structure AnalystChatMessage where
  role : UserRoleType
  content : String
  components : List ChatComponent
deriving DecidableEq

/-- `AnalystChatMessage.to_openai_message_param`: branch on the role and
emit the matching transport dict from the role and content alone. -/
def AnalystChatMessage.to_openai_message_param (m : AnalystChatMessage) :
    ChatCompletionMessageParam :=
  match m.role with
  | .user => { role := m.role, content := m.content }
  | .assistant => { role := m.role, content := m.content }
  | .system => { role := m.role, content := m.content }

/-! ### The reflective execution engine

Modelled from the spec: the engine lives in `utils/code_execution`, which
`src/utils/schema.py` imports but which is not part of `src/`.  The spec's
§4.3 algorithm is followed: attempts are numbered from 1; each attempt
generates and executes code; a success stops with the attempt count; a
failure appends the attempt's structured exception to the history and, once
`attempt == N`, wraps the history in a `MaxReflectionAttempts` that is
converted by the in-source `AnalysisError.from_max_reflection_exception`
into the error result's metadata — returned as data, never raised. -/

/-- What the sandbox capability yields for one attempt: a produced artifact
or a structured exception. -/
inductive SandboxOutcome (α : Type) where
  | ok (artifact : α)
  | fail (e : ReflectedException)

/-- The engine's terminal outcome: a success with the artifact and the
number of attempts used, or an error value wrapping the converted
exhaustion history together with the attempt count. -/
inductive EngineResult (α : Type) where
  | success (artifact : α) (attempts : Nat)
  | error (err : AnalysisError) (attempts : Nat)

/-- Modelled from the spec: one turn of the reflection loop, recursing
until success or `attempt == N` (`sandbox i` is attempt `i`'s
generate-execute outcome). -/
def reflectStep {α : Type} (sandbox : Nat → SandboxOutcome α) (N : Nat) :
    Nat → List ReflectedException → EngineResult α
  | attempt, history =>
    match sandbox attempt with
    | .ok a => .success a attempt
    | .fail e =>
      let history := history ++ [e]
      if h : N ≤ attempt then
        .error
          (AnalysisError.from_max_reflection_exception ⟨some (history.map some)⟩)
          attempt
      else
        reflectStep sandbox N (attempt + 1) history
termination_by attempt _ => N + 1 - attempt

/-- Modelled from the spec: the reflective execution engine, starting at
attempt 1 with an empty history. -/
def runReflectiveAnalysis {α : Type} (sandbox : Nat → SandboxOutcome α) (N : Nat) :
    EngineResult α :=
  reflectStep sandbox N 1 []

/-! ## Theorems -/

/-- C9: marshaling an `AnalystChatMessage` to the LLM transport yields a
message carrying exactly the message's role and content (the transport
shape has no other field), for every role and every components list; the
components never influence or appear in the transport form. -/
theorem C9_to_openai_strips_components (role : UserRoleType) (content : String)
    (components : List ChatComponent) :
    AnalystChatMessage.to_openai_message_param ⟨role, content, components⟩ =
      ⟨role, content⟩ := by
  cases role <;> rfl

/-- C1 counterexample: a `RunAnalysisResult` with `status = "success"` and
populated error metadata passes pydantic construction, and so does one with
`status = "error"` and absent error metadata — `status` is not computed
from the error metadata. -/
theorem C1_counterexample :
    constructs (mkRunAnalysisResult "success"
      { duration := 0, attempts := 1,
        exception := some { exception_history := some [{ exception_str := some "boom" }] } }
      none none) = true ∧
    constructs (mkRunAnalysisResult "error" { duration := 0, attempts := 1 } none none) = true := by
  constructor <;> rfl

/-- C1 amended: for each of the four result types, pydantic construction
succeeds exactly when `status` is the literal `"success"` or `"error"`,
independently of whether the error/exception metadata is populated (the
right-hand side never mentions the metadata). -/
theorem C1_amended (status : String) (m1 : RunAnalysisResultMetadata)
    (m2 : RunDatabaseAnalysisResultMetadata) (ds : Option AnalystDataset)
    (code f1 f2 : Option String) (bl ai : String) (fq : List String)
    (bm : Option GetBusinessAnalysisMetadata) :
    constructs (mkRunAnalysisResult status m1 ds code) =
      (status == "success" || status == "error") ∧
    constructs (mkRunDatabaseAnalysisResult status m2 ds code) =
      (status == "success" || status == "error") ∧
    constructs (mkRunChartsResult status f1 f2 code m1) =
      (status == "success" || status == "error") ∧
    constructs (mkGetBusinessAnalysisResult status bl ai fq bm) =
      (status == "success" || status == "error") := by
  by_cases h : status = "success" ∨ status = "error"
  · have hb : (status == "success" || status == "error") = true := by
      rcases h with h | h <;> simp [h]
    simp [mkRunAnalysisResult, mkRunDatabaseAnalysisResult, mkRunChartsResult,
      mkGetBusinessAnalysisResult, constructs, h, hb]
  · have h2 : ¬ status = "success" ∧ ¬ status = "error" := not_or.mp h
    have hb : (status == "success" || status == "error") = false := by
      simp [h2.1, h2.2]
    simp [mkRunAnalysisResult, mkRunDatabaseAnalysisResult, mkRunChartsResult,
      mkGetBusinessAnalysisResult, constructs, h, hb]

/-- C7 counterexample: both `RunAnalysisRequest` and `RunChartsRequest`
accept an empty question string (their `question` fields carry no
`min_length` constraint). -/
theorem C7_counterexample :
    constructs (mkRunAnalysisRequest [] [] "") = true ∧
    constructs (mkRunChartsRequest ⟨"d", ⟨⟨[], []⟩⟩⟩ "") = true := by
  constructor <;> rfl

/-- C7 amended: only `RunDatabaseAnalysisRequest` rejects an empty question
(its `question` is declared with `min_length=1`); `RunAnalysisRequest` and
`RunChartsRequest` accept every question string, including the empty one. -/
theorem C7_amended (datasets : List AnalystDataset) (dictionaries : List DataDictionary)
    (question : String) (dataset : AnalystDataset) :
    constructs (mkRunDatabaseAnalysisRequest datasets dictionaries question) =
      decide (1 ≤ question.length) ∧
    constructs (mkRunAnalysisRequest datasets dictionaries question) = true ∧
    constructs (mkRunChartsRequest dataset question) = true := by
  refine ⟨?_, rfl, rfl⟩
  by_cases h : 1 ≤ question.length <;> simp [mkRunDatabaseAnalysisRequest, constructs, h]

/-- C8 counterexample: a `GetBusinessAnalysisResult` is constructible with
its metadata entirely absent (`metadata` defaults to `None`), and a
`RunAnalysisResultMetadata` is constructible with every analyzed-count
absent — the counts are not "always populated". -/
theorem C8_counterexample :
    constructs (mkGetBusinessAnalysisResult "error" "b" "a" [] none) = true ∧
    (mkGetBusinessAnalysisResult "error" "b" "a" [] none) =
      .ok { status := "error", bottom_line := "b", additional_insights := "a",
            follow_up_questions := [], metadata := none } ∧
    constructs (mkRunAnalysisResultMetadata (some 0) (some 1) none none none none) = true := by
  refine ⟨rfl, rfl, rfl⟩

/-- C8 amended: `RunAnalysisResultMetadata` and
`RunDatabaseAnalysisResultMetadata` require exactly `duration` and
`attempts` (construction succeeds precisely when both are present,
regardless of the optional counts and exception); the dataset/row/column
counts are optional, and `GetBusinessAnalysisResult` may omit its metadata
altogether. -/
theorem C8_amended (d : Option Rat) (a : Option Int) (x y z : Option Int)
    (e : Option AnalysisError) :
    constructs (mkRunAnalysisResultMetadata d a x y z e) = (d.isSome && a.isSome) ∧
    constructs (mkRunDatabaseAnalysisResultMetadata d a x y e) = (d.isSome && a.isSome) := by
  constructor <;> (cases d <;> cases a <;> rfl)

/-- C6 counterexample: `DataDictionary` construction accepts a duplicated
column name — the model has no validator, so a dictionary in which column
`"a"` appears twice is constructible. -/
theorem C6_counterexample :
    mkDataDictionary "d" [⟨"int64", "a", "first"⟩, ⟨"int64", "a", "second"⟩] =
      .ok ⟨"d", [⟨"int64", "a", "first"⟩, ⟨"int64", "a", "second"⟩]⟩ ∧
    (([⟨"int64", "a", "first"⟩, ⟨"int64", "a", "second"⟩] :
        List DataDictionaryColumn).map DataDictionaryColumn.column).count "a" = 2 := by
  exact ⟨rfl, by decide⟩

/-- C6 amended: `DataDictionary` construction itself performs no duplicate
check (duplicate rejection lives in the `DictionaryGeneration` validator);
what holds of the generation path is that for every dataframe the
dictionary generated by `from_analyst_df` has column list equal to the
dataframe's column list. -/
theorem C6_amended (df : DataFrame) (name desc : String) :
    (DataDictionary.from_analyst_df df name desc).column_descriptions.map
      DataDictionaryColumn.column = df.columns := by
  have hid : (DataDictionaryColumn.column ∘ fun col =>
      ({ column := col, description := desc, data_type := df.colDtype col } :
        DataDictionaryColumn)) = id := rfl
  simp [DataDictionary.from_analyst_df, List.map_map, hid]

/-! ### Validation of `DictionaryGeneration` (C3) -/

/-- The `len(v) == len(set(v))` duplicate test agrees with `Nodup`. -/
theorem length_eq_dedup_length_iff (v : List String) :
    v.length = v.dedup.length ↔ v.Nodup := by
  constructor
  · intro h
    have heq := List.Sublist.eq_of_length (List.dedup_sublist v) h.symm
    rw [← heq]
    exact List.nodup_dedup v
  · intro h
    rw [List.dedup_eq_self.mpr h]

/-- `validate_columns` succeeds exactly on a non-empty, duplicate-free
column list with no empty name. -/
theorem validate_columns_ok_iff (v : List String) :
    constructs (DictionaryGeneration.validate_columns v) = true ↔
      (v ≠ [] ∧ v.Nodup ∧ ∀ c ∈ v, c ≠ "") := by
  unfold DictionaryGeneration.validate_columns
  split_ifs with h1 h2 h3
  · simp [constructs, h1]
  · have hnd : ¬ v.Nodup := fun hn => h2 ((length_eq_dedup_length_iff v).mpr hn)
    simp [constructs, hnd]
  · have hne : ¬ ∀ c ∈ v, c ≠ "" := by
      rw [List.any_eq_true] at h3
      obtain ⟨c, hc, he⟩ := h3
      rw [decide_eq_true_eq] at he
      exact fun hall => (hall c hc) he
    simp [constructs, hne]
  · have hnd : v.Nodup := (length_eq_dedup_length_iff v).mp (not_not.mp h2)
    have hne : ∀ c ∈ v, c ≠ "" := by
      intro c hc hcc
      exact h3 (List.any_eq_true.mpr ⟨c, hc, by rw [decide_eq_true_eq]; exact hcc⟩)
    exact iff_of_true rfl ⟨h1, hnd, hne⟩

/-- On success `validate_columns` returns its input unchanged. -/
theorem validate_columns_ok_shape (v w : List String)
    (h : DictionaryGeneration.validate_columns v = .ok w) : w = v := by
  unfold DictionaryGeneration.validate_columns at h
  split_ifs at h
  all_goals simp_all

/-- One description passes `checkDescription` exactly when it is non-empty
and at least 10 characters long after trimming. -/
theorem checkDescription_ok_iff (d : String) :
    constructs (DictionaryGeneration.checkDescription d) = true ↔
      (d ≠ "" ∧ 10 ≤ d.trim.length) := by
  unfold DictionaryGeneration.checkDescription
  split_ifs with h1 h2
  · simp [constructs, h1]
  · have : ¬ 10 ≤ d.trim.length := by omega
    simp [constructs, this]
  · exact iff_of_true rfl ⟨h1, by omega⟩

/-- The description loop passes exactly when every description does. -/
theorem checkDescriptions_ok_iff (v : List String) :
    constructs (DictionaryGeneration.checkDescriptions v) = true ↔
      ∀ d ∈ v, d ≠ "" ∧ 10 ≤ d.trim.length := by
  induction v with
  | nil => simp [DictionaryGeneration.checkDescriptions, constructs]
  | cons d rest ih =>
    unfold DictionaryGeneration.checkDescriptions
    cases h : DictionaryGeneration.checkDescription d with
    | error m =>
      have hd : ¬ (d ≠ "" ∧ 10 ≤ d.trim.length) := by
        rw [← checkDescription_ok_iff, h]
        simp [constructs]
      constructor
      · intro hfalse
        exact absurd hfalse (by simp [constructs])
      · intro hall
        exact absurd (hall d (List.mem_cons_self d rest)) hd
    | ok u =>
      have hd : d ≠ "" ∧ 10 ≤ d.trim.length := by
        rw [← checkDescription_ok_iff, h]
        rfl
      rw [ih]
      constructor
      · intro hall e he
        rcases List.mem_cons.mp he with rfl | hrest
        · exact hd
        · exact hall e hrest
      · intro hall e he
        exact hall e (List.mem_cons_of_mem d he)

/-- `validate_descriptions` succeeds exactly when the lengths match and
every description is valid. -/
theorem validate_descriptions_ok_iff (v columns : List String) :
    constructs (DictionaryGeneration.validate_descriptions v columns) = true ↔
      (v.length = columns.length ∧ ∀ d ∈ v, d ≠ "" ∧ 10 ≤ d.trim.length) := by
  unfold DictionaryGeneration.validate_descriptions
  split_ifs with h1
  · simp [constructs, h1]
  · have hlen : v.length = columns.length := not_not.mp h1
    cases h : DictionaryGeneration.checkDescriptions v with
    | error m =>
      have hnd : ¬ ∀ d ∈ v, d ≠ "" ∧ 10 ≤ d.trim.length := by
        rw [← checkDescriptions_ok_iff, h]
        simp [constructs]
      constructor
      · intro hfalse
        exact absurd hfalse (by simp [constructs])
      · rintro ⟨_, hall⟩
        exact absurd hall hnd
    | ok u =>
      have hall : ∀ d ∈ v, d ≠ "" ∧ 10 ≤ d.trim.length := by
        rw [← checkDescriptions_ok_iff, h]
        rfl
      exact iff_of_true rfl ⟨hlen, hall⟩

/-- C3: `DictionaryGeneration` construction succeeds exactly when the
column list is non-empty, duplicate-free and free of empty names, the
description list matches it in length, and every description is a
non-empty string of trimmed length at least 10. -/
theorem C3_dictionary_generation_validation (columns descriptions : List String) :
    constructs (mkDictionaryGeneration columns descriptions) = true ↔
      (columns ≠ [] ∧ columns.Nodup ∧ (∀ c ∈ columns, c ≠ "") ∧
       descriptions.length = columns.length ∧
       ∀ d ∈ descriptions, d ≠ "" ∧ 10 ≤ d.trim.length) := by
  unfold mkDictionaryGeneration
  cases hc : DictionaryGeneration.validate_columns columns with
  | error m =>
    have hnP : ¬ (columns ≠ [] ∧ columns.Nodup ∧ ∀ c ∈ columns, c ≠ "") := by
      rw [← validate_columns_ok_iff, hc]
      simp [constructs]
    simp only [Except.bind, constructs, Bool.false_eq_true, false_iff]
    rintro ⟨hne, hnd, hok, _, _⟩
    exact absurd ⟨hne, hnd, hok⟩ hnP
  | ok cols =>
    have hP : columns ≠ [] ∧ columns.Nodup ∧ ∀ c ∈ columns, c ≠ "" := by
      rw [← validate_columns_ok_iff, hc]
      rfl
    simp only [Except.bind]
    rw [validate_columns_ok_shape _ _ hc]
    cases hd : DictionaryGeneration.validate_descriptions descriptions columns with
    | error m =>
      have hnD : ¬ (descriptions.length = columns.length ∧
          ∀ d ∈ descriptions, d ≠ "" ∧ 10 ≤ d.trim.length) := by
        rw [← validate_descriptions_ok_iff, hd]
        simp [constructs]
      simp only [Except.bind, hd, constructs, Bool.false_eq_true, false_iff]
      rintro ⟨_, _, _, h4, h5⟩
      exact absurd ⟨h4, h5⟩ hnD
    | ok descs =>
      have hD : descriptions.length = columns.length ∧
          ∀ d ∈ descriptions, d ≠ "" ∧ 10 ≤ d.trim.length := by
        rw [← validate_descriptions_ok_iff, hd]
        rfl
      simp only [Except.bind, hd, constructs, true_iff]
      exact ⟨hP.1, hP.2.1, hP.2.2, hD.1, hD.2⟩

/-! ### Round trip through the application dataframe (C10) -/

/-- Reading one projected row back yields the original dictionary entry. -/
theorem readDictRow_to_application (df : DataFrame)
    (hcols : df.columns = ["column", "description", "data_type"])
    (c : DataDictionaryColumn) :
    df.readDictRow [Value.vStr c.column, Value.vStr c.description, Value.vStr c.data_type] =
      .ok c := by
  unfold DataFrame.readDictRow DataFrame.cell
  rw [hcols]
  rfl

/-- Reading all projected rows back yields the original entry list. -/
theorem readDictRows_to_application (df : DataFrame)
    (hcols : df.columns = ["column", "description", "data_type"])
    (cds : List DataDictionaryColumn) :
    df.readDictRows (cds.map (fun c =>
      [Value.vStr c.column, Value.vStr c.description, Value.vStr c.data_type])) = .ok cds := by
  induction cds with
  | nil => rfl
  | cons c rest ih =>
    simp only [List.map_cons]
    unfold DataFrame.readDictRows
    rw [readDictRow_to_application df hcols c, ih]

/-- C10: for every data dictionary with at least one column description,
projecting to the application dataframe and parsing it back (under the
dictionary's own name) is the identity: order and every
`(column, description, data_type)` value are preserved. -/
theorem C10_application_df_round_trip (d : DataDictionary)
    (_hne : d.column_descriptions ≠ []) :
    DataDictionary.from_application_df (DataDictionary.to_application_df d) d.name =
      .ok d := by
  have hcols : (DataDictionary.to_application_df d).columns =
      ["column", "description", "data_type"] := rfl
  have hmem : ("column" ∈ (DataDictionary.to_application_df d).columns ∧
      "description" ∈ (DataDictionary.to_application_df d).columns ∧
      "data_type" ∈ (DataDictionary.to_application_df d).columns) := by
    rw [hcols]
    exact ⟨by simp, by simp, by simp⟩
  unfold DataDictionary.from_application_df
  rw [if_pos hmem]
  have hrows : (DataDictionary.to_application_df d).rows = d.column_descriptions.map
      (fun c => [Value.vStr c.column, Value.vStr c.description, Value.vStr c.data_type]) := rfl
  rw [hrows, readDictRows_to_application _ hcols]

/-- C10 witness: the round trip at a concrete one-entry dictionary. -/
theorem C10_witness :
    (DataDictionary.mk "dict" [⟨"int64", "a", "column a"⟩]).column_descriptions ≠ [] ∧
    DataDictionary.from_application_df
        (DataDictionary.to_application_df (DataDictionary.mk "dict" [⟨"int64", "a", "column a"⟩]))
        (DataDictionary.mk "dict" [⟨"int64", "a", "column a"⟩]).name =
      .ok (DataDictionary.mk "dict" [⟨"int64", "a", "column a"⟩]) :=
  ⟨by decide, C10_application_df_round_trip _ (by decide)⟩

/-! ### The reflection loop exhausts exactly the attempt budget (C2) -/

/-- Splitting the first element off a shifted `range`-map. -/
theorem map_range_shift {β : Type} (f : Nat → β) (attempt k : Nat) :
    (List.range (k + 2)).map (fun i => f (attempt + i)) =
      f attempt :: (List.range (k + 1)).map (fun i => f (attempt + 1 + i)) := by
  rw [List.range_succ_eq_map]
  simp only [List.map_cons, List.map_map, Nat.add_zero]
  congr 1
  apply List.map_congr_left
  intro i _
  simp only [Function.comp_apply]
  congr 1
  omega

/-- With an always-failing sandbox, the loop started at `attempt` (where
`attempt + k = N`) runs attempts `attempt, …, N`, appends their failures to
the prior history oldest first, and stops at attempt `N` with the converted
history as its error value. -/
theorem reflectStep_all_fail (errs : Nat → ReflectedException) (N : Nat) :
    ∀ (k attempt : Nat) (history : List ReflectedException),
      attempt + k = N →
      reflectStep (α := AnalystDataset) (fun i => .fail (errs i)) N attempt history =
        .error (AnalysisError.from_max_reflection_exception
          ⟨some ((history ++ (List.range (k + 1)).map (fun i => errs (attempt + i))).map some)⟩)
          N := by
  intro k
  induction k with
  | zero =>
    intro attempt history h
    have hA : N ≤ attempt := by omega
    unfold reflectStep
    simp only [dif_pos hA, show List.range 1 = [0] from rfl, List.map_cons, List.map_nil,
      Nat.add_zero]
    have hAN : attempt = N := by omega
    subst hAN
    rfl
  | succ k ih =>
    intro attempt history h
    have hA : ¬ N ≤ attempt := by omega
    unfold reflectStep
    simp only [dif_neg hA]
    rw [ih (attempt + 1) (history ++ [errs attempt]) (by omega)]
    rw [List.append_assoc, List.singleton_append]
    rw [show k + 1 + 1 = k + 2 from rfl, map_range_shift]

/-- C2: for every attempt bound `N ≥ 1` and a sandbox capability failing on
every attempt, the engine stops at attempt `N` and returns (as a value, not
an exception) an error result wrapping the reflection-exhausted error whose
converted history lists one `CodeExecutionError` per attempt `1, …, N`,
oldest first — in particular the history has length exactly `N`. -/
theorem C2_reflection_exhaustion (N : Nat) (hN : 1 ≤ N) (errs : Nat → ReflectedException) :
    runReflectiveAnalysis (α := AnalystDataset) (fun i => .fail (errs i)) N =
      .error (AnalysisError.from_max_reflection_exception
        ⟨some (((List.range N).map (fun i => errs (1 + i))).map some)⟩) N ∧
    (AnalysisError.from_max_reflection_exception
        ⟨some (((List.range N).map (fun i => errs (1 + i))).map some)⟩).exception_history =
      some ((List.range N).map (fun i => (errs (1 + i)).toCodeExecutionError)) ∧
    ((List.range N).map (fun i => (errs (1 + i)).toCodeExecutionError)).length = N := by
  refine ⟨?_, ?_, ?_⟩
  · unfold runReflectiveAnalysis
    have h := reflectStep_all_fail errs N (N - 1) 1 [] (by omega)
    rw [show N - 1 + 1 = N from by omega] at h
    simpa using h
  · simp [AnalysisError.from_max_reflection_exception, List.filterMap_map, Function.comp,
      List.filterMap_some, List.map_map]
  · simp

/-- C2 witness: attempt budget 2 with a sandbox that fails every attempt. -/
theorem C2_witness :
    1 ≤ 2 ∧
    runReflectiveAnalysis (α := AnalystDataset)
        (fun _ => SandboxOutcome.fail ⟨"boom", none, none, none, none⟩) 2 =
      .error (AnalysisError.from_max_reflection_exception
        ⟨some (((List.range 2).map (fun _ =>
            (⟨"boom", none, none, none, none⟩ : ReflectedException))).map some)⟩) 2 :=
  ⟨by decide,
    (C2_reflection_exhaustion 2 (by decide) (fun _ => ⟨"boom", none, none, none, none⟩)).1⟩

/-! ### Record round trip through `from_records` / `data_records`
(C4, C5) -/

/-- A lookup misses exactly the keys outside the record. -/
theorem Record.lookup_eq_none_iff (r : Record) (k : String) :
    Record.lookup r k = none ↔ k ∉ Record.keys r := by
  unfold Record.lookup Record.keys
  rw [Option.map_eq_none', List.find?_eq_none]
  constructor
  · intro h hk
    obtain ⟨p, hp, hpk⟩ := List.mem_map.mp hk
    exact h p hp (by rw [decide_eq_true_eq]; exact hpk)
  · intro h p hp hpk
    rw [decide_eq_true_eq] at hpk
    exact h (List.mem_map.mpr ⟨p, hp, hpk⟩)

/-- Lookup distributes over a cons pair. -/
theorem Record.lookup_cons (p : String × Value) (r : Record) (k : String) :
    Record.lookup (p :: r) k = if p.1 = k then some p.2 else Record.lookup r k := by
  unfold Record.lookup
  rw [List.find?_cons]
  by_cases h : p.1 = k
  · simp [h]
  · simp [h]

/-- Looking a key up in a column-tabulated record recovers the tabulated
value exactly on the columns. -/
theorem lookup_map_pair (cols : List String) (f : String → Value) (k : String) :
    Record.lookup (cols.map (fun c => (c, f c))) k =
      if k ∈ cols then some (f k) else none := by
  induction cols with
  | nil => simp [Record.lookup]
  | cons c cs ih =>
    rw [List.map_cons, Record.lookup_cons, ih]
    by_cases hc : c = k
    · subst hc
      simp
    · simp only [hc, if_false]
      by_cases hk : k ∈ cs
      · simp [hk, List.mem_cons, Ne.symm hc]
      · simp [hk, List.mem_cons, Ne.symm hc]

/-- Folding further records whose keys are already collected leaves the
accumulator unchanged. -/
theorem foldl_union_no_new (l : List Record) :
    ∀ acc : List String, (∀ rec ∈ l, ∀ k ∈ Record.keys rec, k ∈ acc) →
      List.foldl (fun acc r =>
        acc ++ ((Record.keys r).filter (fun k => !acc.contains k))) acc l = acc := by
  induction l with
  | nil =>
    intro acc _
    rfl
  | cons rec rest ih =>
    intro acc h
    rw [List.foldl_cons]
    have hfilter : (Record.keys rec).filter (fun k => !acc.contains k) = [] := by
      rw [List.filter_eq_nil_iff]
      intro k hk
      have hmem : k ∈ acc := h rec (List.mem_cons_self rec rest) k hk
      simp [List.contains, List.elem_eq_mem, hmem]
    rw [hfilter, List.append_nil]
    exact ih acc (fun r hr => h r (List.mem_cons_of_mem rec hr))

/-- When every later record's keys already occur in the first record, the
inferred column order is exactly the first record's key order. -/
theorem unionKeys_of_subset (first : Record) (rest : List Record)
    (hsub : ∀ rec ∈ rest, ∀ k ∈ Record.keys rec, k ∈ Record.keys first) :
    unionKeys (first :: rest) = Record.keys first := by
  unfold unionKeys
  rw [List.foldl_cons]
  have h0 : ([] : List String) ++
      ((Record.keys first).filter (fun k => !([] : List String).contains k)) =
      Record.keys first := by
    rw [List.nil_append, List.filter_eq_self.mpr]
    intro a _
    rfl
  rw [h0]
  exact foldl_union_no_new rest (Record.keys first) hsub

/-- Zipping a list with its own image tabulates the function. -/
theorem zip_self_map (l : List String) (g : String → Value) :
    l.zip (l.map g) = l.map (fun a => (a, g a)) := by
  induction l with
  | nil => rfl
  | cons a as ih =>
    rw [List.map_cons, List.zip_cons_cons, ih, List.map_cons]

/-- Python `==` is reflexive on every scalar except `NaN`. -/
theorem pyEq_refl (v : Value) (h : v ≠ Value.vNan) : Value.pyEq v v = true := by
  cases v with
  | vInt i => simp [Value.pyEq]
  | vFloat q => simp [Value.pyEq]
  | vStr s => simp [Value.pyEq]
  | vBool b => simp [Value.pyEq]
  | vNull => rfl
  | vNan => exact absurd rfl h

/-- A successful lookup returns a pair of the record. -/
theorem Record.lookup_mem (r : Record) (k : String) (v : Value)
    (h : Record.lookup r k = some v) : (k, v) ∈ r := by
  unfold Record.lookup at h
  cases hf : r.find? (fun p => p.1 = k) with
  | none =>
    rw [hf] at h
    cases h
  | some p =>
    rw [hf] at h
    simp only [Option.map_some'] at h
    have hp := List.mem_of_find?_eq_some hf
    have hpk := List.find?_some hf
    rw [decide_eq_true_eq] at hpk
    have hkv : p = (k, v) := by
      cases p
      simp_all
    rw [← hkv]
    exact hp

/-- A record projected onto a column list carrying the same key set, with
each cell kept as a Python object (`objectFill`), is dict-equal to the
original record as long as the record holds no `NaN` value. -/
theorem projected_equiv_object (cols : List String) (rec : Record)
    (hsub : ∀ k ∈ Record.keys rec, k ∈ cols)
    (hsup : ∀ k ∈ cols, k ∈ Record.keys rec)
    (hnonan : ∀ p ∈ rec, p.2 ≠ Value.vNan) :
    Record.EquivDict
      (cols.map (fun c => (c, objectFill (Record.lookup rec c)))) rec := by
  intro k
  rw [lookup_map_pair]
  by_cases hk : k ∈ cols
  · rw [if_pos hk]
    cases h : Record.lookup rec k with
    | none => exact absurd (hsup k hk) ((Record.lookup_eq_none_iff rec k).mp h)
    | some v =>
      have hv : v ≠ Value.vNan := hnonan (k, v) (Record.lookup_mem rec k v h)
      simp only [objectFill, optPyEq]
      exact pyEq_refl v hv
  · rw [if_neg hk]
    have hnone : Record.lookup rec k = none :=
      (Record.lookup_eq_none_iff rec k).mpr (fun hmem => hk (hsub k hmem))
    rw [hnone]
    rfl

/-- C4 counterexample: the uniform record list of one int record and one
`None` record over column `a` satisfies every hypothesis of the original
round-trip claim, yet the program returns the `float64`-unified records
int-as-float and `NaN`, which are not Python-dict-equal to the input
(`NaN` is unequal to `None`). -/
theorem C4_counterexample :
    counterRecords ≠ [] ∧
    (∀ rec ∈ counterRecords, (Record.keys rec).Nodup) ∧
    (∀ rec ∈ counterRecords,
      (∀ k ∈ Record.keys rec, k ∈ Record.keys (counterRecords.headD [])) ∧
      (∀ k ∈ Record.keys (counterRecords.headD []), k ∈ Record.keys rec)) ∧
    AnalystDataset.data_records ⟨"d", ⟨DataFrame.from_records counterRecords⟩⟩ =
      [[("a", Value.vFloat 1)], [("a", Value.vNan)]] ∧
    ¬ List.Forall₂ Record.EquivDict
        (AnalystDataset.data_records ⟨"d", ⟨DataFrame.from_records counterRecords⟩⟩)
        counterRecords := by
  refine ⟨by decide, by decide, by decide, by decide, ?_⟩
  intro h
  rw [show AnalystDataset.data_records ⟨"d", ⟨DataFrame.from_records counterRecords⟩⟩ =
      [[("a", Value.vFloat 1)], [("a", Value.vNan)]] from by decide] at h
  cases h with
  | cons h1 htail =>
    cases htail with
    | cons h2 _ => exact absurd (h2 "a") (by decide)

/-- C4 (amended): dataset construction from a non-empty uniform record
sequence succeeds, and when additionally no input value is `NaN` and no
column triggers pandas `float64` unification (a numeric column containing
a float, `None`, or a missing cell), projecting back through
`data_records` returns a record list of the same length in the same order
in which each record is Python-dict-equal (same key set, `==`-equal value
at every key) to the original.  Without the unification hypothesis the
values are not preserved — see the counterexample. -/
theorem C4_from_records_round_trip (name : String) (r : List Record)
    (hne : r ≠ [])
    (_hnodup : ∀ rec ∈ r, (Record.keys rec).Nodup)
    (hsame : ∀ rec ∈ r,
      (∀ k ∈ Record.keys rec, k ∈ Record.keys (r.headD [])) ∧
      (∀ k ∈ Record.keys (r.headD []), k ∈ Record.keys rec))
    (hnonan : ∀ rec ∈ r, ∀ p ∈ rec, p.2 ≠ Value.vNan)
    (hnounify : ∀ c ∈ unionKeys r,
      floatUnify (r.map (fun rec => Record.lookup rec c)) = false) :
    AnalystDataset.from_records name r = .ok ⟨name, ⟨DataFrame.from_records r⟩⟩ ∧
    List.Forall₂ Record.EquivDict
      (AnalystDataset.data_records ⟨name, ⟨DataFrame.from_records r⟩⟩) r := by
  refine ⟨rfl, ?_⟩
  have hrows : ∀ rec : Record, (unionKeys r).map
      (fun c => if floatUnify (r.map (fun r2 => Record.lookup r2 c))
        then floatCoerce (Record.lookup rec c)
        else objectFill (Record.lookup rec c)) =
      (unionKeys r).map (fun c => objectFill (Record.lookup rec c)) := by
    intro rec
    apply List.map_congr_left
    intro c hc
    have hcu : ¬ (floatUnify (r.map (fun r2 => Record.lookup r2 c)) = true) := by
      rw [hnounify c hc]
      exact Bool.false_ne_true
    rw [if_neg hcu]
  cases r with
  | nil => exact absurd rfl hne
  | cons first rest =>
    simp only [List.headD_cons] at hsame
    have hcols : unionKeys (first :: rest) = Record.keys first :=
      unionKeys_of_subset first rest
        (fun rec hrec => (hsame rec (List.mem_cons_of_mem first hrec)).1)
    simp only [AnalystDataset.data_records, DataFrame.to_dict, DataFrame.from_records,
      List.map_map]
    rw [List.forall₂_map_left_iff, List.forall₂_same]
    intro rec hrec
    simp only [Function.comp_apply]
    rw [hrows rec, zip_self_map, hcols]
    exact projected_equiv_object (Record.keys first) rec
      (hsame rec hrec).1 (hsame rec hrec).2 (hnonan rec hrec)

/-- C4 witness: the amended round trip at a concrete two-record input
whose second record lists its keys in a different order and whose columns
(all-int and all-string) stay un-unified. -/
theorem C4_witness :
    exampleRecords ≠ [] ∧
    (∀ rec ∈ exampleRecords, (Record.keys rec).Nodup) ∧
    (∀ rec ∈ exampleRecords,
      (∀ k ∈ Record.keys rec, k ∈ Record.keys (exampleRecords.headD [])) ∧
      (∀ k ∈ Record.keys (exampleRecords.headD []), k ∈ Record.keys rec)) ∧
    (∀ rec ∈ exampleRecords, ∀ p ∈ rec, p.2 ≠ Value.vNan) ∧
    (∀ c ∈ unionKeys exampleRecords,
      floatUnify (exampleRecords.map (fun rec => Record.lookup rec c)) = false) ∧
    AnalystDataset.from_records "sales" exampleRecords =
      .ok ⟨"sales", ⟨DataFrame.from_records exampleRecords⟩⟩ ∧
    List.Forall₂ Record.EquivDict
      (AnalystDataset.data_records ⟨"sales", ⟨DataFrame.from_records exampleRecords⟩⟩)
      exampleRecords :=
  ⟨by decide, by decide, by decide, by decide, by decide,
    (C4_from_records_round_trip "sales" exampleRecords (by decide) (by decide) (by decide)
      (by decide) (by decide)).1,
    (C4_from_records_round_trip "sales" exampleRecords (by decide) (by decide) (by decide)
      (by decide) (by decide)).2⟩

/-- C5: dataset construction from a record (mapping) sequence never takes
the failure branch — any family of dict records is reconciled into a
rectangular table (missing keys are `NaN`-filled), so the claim's failure
clause is vacuous for mappings — and on uniform records it succeeds with
the column order inferred from the first record. -/
theorem C5_from_records_uniform (r : List Record) (hne : r ≠ [])
    (hsame : ∀ rec ∈ r,
      (∀ k ∈ Record.keys rec, k ∈ Record.keys (r.headD [])) ∧
      (∀ k ∈ Record.keys (r.headD []), k ∈ Record.keys rec)) :
    (DataFrameWrapper.validate (.records r) = .ok ⟨DataFrame.from_records r⟩ ∧
     (DataFrame.from_records r).columns = Record.keys (r.headD [])) ∧
    ∀ rs : List Record, constructs (DataFrameWrapper.validate (.records rs)) = true := by
  refine ⟨⟨rfl, ?_⟩, fun rs => rfl⟩
  cases r with
  | nil => exact absurd rfl hne
  | cons first rest =>
    simp only [List.headD_cons] at hsame ⊢
    exact unionKeys_of_subset first rest
      (fun rec hrec => (hsame rec (List.mem_cons_of_mem first hrec)).1)

/-- C5 witness: uniform construction at a concrete two-record input. -/
theorem C5_witness :
    exampleRecords ≠ [] ∧
    (∀ rec ∈ exampleRecords,
      (∀ k ∈ Record.keys rec, k ∈ Record.keys (exampleRecords.headD [])) ∧
      (∀ k ∈ Record.keys (exampleRecords.headD []), k ∈ Record.keys rec)) ∧
    (DataFrameWrapper.validate (.records exampleRecords) =
      .ok ⟨DataFrame.from_records exampleRecords⟩ ∧
     (DataFrame.from_records exampleRecords).columns =
      Record.keys (exampleRecords.headD [])) :=
  ⟨by decide, by decide,
    (C5_from_records_uniform exampleRecords (by decide) (by decide)).1⟩

end TalkToMyData
